import Mathlib

/-!
Shallow embedding of the scene simulation in `src/scene.rs` (the snowman
terminal animation).  `f32` values are modelled as exact rationals, `u16`
and `usize` as `Nat`.  The stateful `ThreadRng` is modelled by passing the
values drawn by each `gen_range` / `gen_ratio` call as explicit arguments;
the admissible range of each draw (the argument of the corresponding
`gen_range` call in the source) appears as a hypothesis of the theorems.
A `gen_range` call on an empty range panics in the source, so the
operations that can panic return `Option Scene` (`none` = panic).
-/

namespace Snowman

/-- The gravity constant `GRAVITY` of scene.rs line 12 (`0.98` b/T). -/
def GRAVITY : ℚ := 0.98

/-- A single snowflake (scene.rs lines 20-25): position `(x, y)` in
terminal cells and mass `m` in grams. -/
structure Snowflake where
  x : ℚ
  y : ℚ
  m : ℚ
  deriving DecidableEq

/-- `Snowflake::new` (scene.rs lines 28-34). -/
def Snowflake.new (x0 y0 m : ℚ) : Snowflake :=
  { x := x0, y := y0, m := m }

/-- `Snowflake::update` (scene.rs lines 36-39): add the wind drift to the
position, plus `GRAVITY * m` on the vertical component only. -/
def Snowflake.update (f : Snowflake) (dx dy : ℚ) : Snowflake :=
  { f with x := f.x + dx, y := f.y + (dy + GRAVITY * f.m) }

/-- `Snowflake::is_alive` (scene.rs lines 41-43):
`y <= y_max && x <= x_max && x >= 0`. -/
def Snowflake.is_alive (f : Snowflake) (x_max y_max : ℚ) : Bool :=
  decide (f.y ≤ y_max) && decide (f.x ≤ x_max) && decide (0 ≤ f.x)

/-- Iterated `Snowflake::update` with a constant wind: `n` integration
steps. -/
def Snowflake.updateN (f : Snowflake) (dx dy : ℚ) : ℕ → Snowflake
  | 0 => f
  | n + 1 => (f.updateN dx dy n).update dx dy

/-- `SnowfallIntensity` (scene.rs lines 52-61). -/
inductive SnowfallIntensity
  | Low
  | Medium
  | High
  deriving DecidableEq

/-- The density factor of `Scene::init_snowflakes` (scene.rs lines
112-116): the `match` on the intensity. -/
def density_factor : SnowfallIntensity → ℚ
  | .Low => 0.05
  | .Medium => 0.1
  | .High => 0.2

/-- `max_snowflakes` as computed by `Scene::init_snowflakes` (scene.rs
lines 112-116): `(factor * cols * rows) as usize` (truncation of a
non-negative value = floor). -/
def max_snowflakes_for (i : SnowfallIntensity) (c r : ℕ) : ℕ :=
  ⌊density_factor i * (c : ℚ) * (r : ℚ)⌋₊

/-- The `Scene` struct (scene.rs lines 66-78), without the `rng` handle,
which is modelled by explicit draw arguments. -/
structure Scene where
  cols : ℕ
  rows : ℕ
  snowman_col : Option ℕ
  tree_col : Option ℕ
  santa_col : Option ℕ
  snowflakes : List Snowflake
  max_snowflakes : ℕ
  intensity : SnowfallIntensity
  wind_x : ℚ
  wind_y : ℚ
  deriving DecidableEq

/-- First step of `Scene::calc_entity_positions` (scene.rs lines 83-85):
when `cols >= 6`, set the snowman anchor to the drawn column `sm`
(drawn by `gen_range(1..cols-1)`); otherwise leave the state unchanged. -/
def Scene.place_snowman (s : Scene) (sm : ℕ) : Scene :=
  if 6 ≤ s.cols then { s with snowman_col := some sm } else s

/-- Second step of `Scene::calc_entity_positions` (scene.rs lines 87-95):
when the snowman anchor is present and `cols >= 12`, set the tree anchor
to the column `t` at which the rejection loop over `gen_range(2..cols-2)`
broke; otherwise leave the state unchanged. -/
def Scene.place_tree (s : Scene) (t : ℕ) : Scene :=
  if s.snowman_col.isSome ∧ 12 ≤ s.cols then { s with tree_col := some t } else s

/-- Third step of `Scene::calc_entity_positions` (scene.rs lines 97-106):
inside the tree branch (snowman present and `cols >= 12`), when
`cols >= 17`, set the santa anchor to the column `sa` at which the
rejection loop over `gen_range(1..cols-1)` broke. -/
def Scene.place_santa (s : Scene) (sa : ℕ) : Scene :=
  if s.snowman_col.isSome ∧ 12 ≤ s.cols ∧ 17 ≤ s.cols then
    { s with santa_col := some sa } else s

/-- `Scene::calc_entity_positions` (scene.rs lines 81-109), with the
accepted draws of the three sampling sites passed explicitly. -/
def Scene.calc_entity_positions (s : Scene) (sm t sa : ℕ) : Scene :=
  ((s.place_snowman sm).place_tree t).place_santa sa

/-- Validity of the draws consumed by `Scene::calc_entity_positions` for a
grid of width `cols`: each drawn column lies in the range of its
`gen_range` call, and the loop-accepted values satisfy the `break`
conditions of scene.rs lines 91 and 100-101. -/
def ValidCalcDraws (cols sm t sa : ℕ) : Prop :=
  (6 ≤ cols → 1 ≤ sm ∧ sm < cols - 1) ∧
  (12 ≤ cols → 2 ≤ t ∧ t < cols - 2 ∧ 6 ≤ ((t : ℤ) - (sm : ℤ)).natAbs) ∧
  (17 ≤ cols → 1 ≤ sa ∧ sa < cols - 1 ∧ 5 ≤ ((sa : ℤ) - (sm : ℤ)).natAbs ∧
    6 ≤ ((sa : ℤ) - (t : ℤ)).natAbs)

instance (cols sm t sa : ℕ) : Decidable (ValidCalcDraws cols sm t sa) := by
  unfold ValidCalcDraws; infer_instance

/-- Admissible mass values of the initial spawn:
`gen_range(0.6..=1.4)` (scene.rs line 123), an inclusive range. -/
def init_mass_ok (q : ℚ) : Bool :=
  decide (0.6 ≤ q) && decide (q ≤ 1.4)

/-- Admissible mass values of the per-tick spawn:
`gen_range(0.6..1.4)` (scene.rs line 187), a half-open range. -/
def tick_mass_ok (q : ℚ) : Bool :=
  decide (0.6 ≤ q) && decide (q < 1.4)

/-- `Scene::init_snowflakes` (scene.rs lines 111-126).  It recomputes
`max_snowflakes` and then draws `num` from `gen_range(0..max/16)`, which
panics (`none`) when that range is empty, i.e. when `max / 16 = 0`.
`xs i` and `ms i` are the column (`gen_range(0..cols)`) and mass draws of
the `i`-th spawned flake. -/
def Scene.init_snowflakes (s : Scene) (num : ℕ) (xs : ℕ → ℕ) (ms : ℕ → ℚ) :
    Option Scene :=
  if max_snowflakes_for s.intensity s.cols s.rows / 16 = 0 then none
  else some
    { s with
      max_snowflakes := max_snowflakes_for s.intensity s.cols s.rows,
      snowflakes := (List.range num).map
        (fun i => Snowflake.new ((xs i : ℕ) : ℚ) 0 (ms i)) }

/-- Validity of the draws consumed by `Scene::init_snowflakes`: the count
is drawn from `0..max/16`, each column from `0..cols`, each mass from
`0.6..=1.4`. -/
def ValidInitDraws (s : Scene) (num : ℕ) (xs : ℕ → ℕ) (ms : ℕ → ℚ) : Prop :=
  num < max_snowflakes_for s.intensity s.cols s.rows / 16 ∧
  (∀ i, i < num → xs i < s.cols) ∧
  (∀ i, i < num → init_mass_ok (ms i) = true)

/-- The scene assembled by `Scene::new` (scene.rs lines 132-144) before
`calc_entity_positions` and `init_snowflakes` run: no anchors, no
snowflakes, `max_snowflakes = 0`, wind drawn from
`gen_range(-0.25..0.25)` and `gen_range(0.0..0.05)`. -/
def Scene.fresh (i : SnowfallIntensity) (c r : ℕ) (wx0 wy0 : ℚ) : Scene :=
  { cols := c, rows := r,
    snowman_col := none, tree_col := none, santa_col := none,
    snowflakes := [], max_snowflakes := 0, intensity := i,
    wind_x := wx0, wind_y := wy0 }

/-- `Scene::new` (scene.rs lines 128-148): build the fresh scene, place
the entities, then initialise the snowflakes (which can panic). -/
def Scene.new (i : SnowfallIntensity) (c r : ℕ) (wx0 wy0 : ℚ)
    (sm t sa : ℕ) (num : ℕ) (xs : ℕ → ℕ) (ms : ℕ → ℚ) : Option Scene :=
  ((Scene.fresh i c r wx0 wy0).calc_entity_positions sm t sa).init_snowflakes
    num xs ms

/-- The wind after the wind step of `Scene::update` (scene.rs lines
161-166): with the `gen_ratio(1, 5)` draw `gust`, add the deltas
(each drawn from `gen_range(-0.1..=0.1)`) and clamp the vertical
component with `.max(0.0)`; otherwise leave the wind unchanged. -/
def Scene.wind_after (s : Scene) (gust : Bool) (wdx wdy : ℚ) : ℚ × ℚ :=
  if gust then (s.wind_x + wdx, max (s.wind_y + wdy) 0) else (s.wind_x, s.wind_y)

/-- The live set after integration (scene.rs lines 169-171) and culling
(scene.rs line 174) of a stable tick: every flake moved by the updated
wind, then `retain(is_alive(cols, rows))`. -/
def Scene.culled_after (s : Scene) (gust : Bool) (wdx wdy : ℚ) : List Snowflake :=
  (s.snowflakes.map
    (fun f => f.update (s.wind_after gust wdx wdy).1 (s.wind_after gust wdx wdy).2)).filter
    (fun f => f.is_alive (s.cols : ℚ) (s.rows : ℚ))

/-- The stable-tick branch of `Scene::update` (scene.rs lines 161-191):
wind step, integration, culling, then — only when the live count is below
`max_snowflakes` — spawn `numNew` flakes (count drawn from
`gen_range(0..=(rem/10))`) at `y = 0` with columns `xs i` drawn from
`gen_range(0..cols)` and masses `ms i` drawn from `gen_range(0.6..1.4)`. -/
def Scene.update_stable (s : Scene) (gust : Bool) (wdx wdy : ℚ)
    (numNew : ℕ) (xs : ℕ → ℕ) (ms : ℕ → ℚ) : Scene :=
  { s with
    wind_x := (s.wind_after gust wdx wdy).1,
    wind_y := (s.wind_after gust wdx wdy).2,
    snowflakes :=
      if (s.culled_after gust wdx wdy).length < s.max_snowflakes then
        s.culled_after gust wdx wdy ++
          (List.range numNew).map
            (fun i => Snowflake.new ((xs i : ℕ) : ℚ) 0 (ms i))
      else s.culled_after gust wdx wdy }

/-- Validity of the draws consumed by the spawn step of a stable tick
(scene.rs lines 178-190), given the culled live count `culledLen`:
the count is drawn from the inclusive range `0..=(rem/10)` with
`rem = max_snowflakes - culledLen`, each column from `0..cols`, each mass
from the half-open `0.6..1.4`. -/
def ValidSpawnDraws (cols maxS culledLen numNew : ℕ)
    (xs : ℕ → ℕ) (ms : ℕ → ℚ) : Prop :=
  numNew ≤ (maxS - culledLen) / 10 ∧
  (∀ i, i < numNew → xs i < cols) ∧
  (∀ i, i < numNew → tick_mass_ok (ms i) = true)

/-- `Scene::update` (scene.rs lines 150-192), with the observed terminal
size `(c, r)` and all random draws passed explicitly.  When the size
differs from the stored one, the resize branch runs (recompute anchors,
reinitialise the snowflakes — possibly panicking — and return);
otherwise the stable branch runs. -/
def Scene.update (s : Scene) (c r : ℕ) (sm t sa : ℕ) (num : ℕ)
    (xs0 : ℕ → ℕ) (ms0 : ℕ → ℚ) (gust : Bool) (wdx wdy : ℚ)
    (numNew : ℕ) (xs : ℕ → ℕ) (ms : ℕ → ℚ) : Option Scene :=
  if c ≠ s.cols ∨ r ≠ s.rows then
    (({ s with cols := c, rows := r }).calc_entity_positions sm t sa).init_snowflakes
      num xs0 ms0
  else
    some (s.update_stable gust wdx wdy numNew xs ms)

/-- The three anchors are all present and pairwise satisfy the
minimum-distance thresholds of scene.rs lines 91 and 100-101. -/
def anchors_spaced (s : Scene) : Bool :=
  match s.snowman_col, s.tree_col, s.santa_col with
  | some a, some b, some d =>
    decide (6 ≤ ((b : ℤ) - (a : ℤ)).natAbs) &&
    decide (5 ≤ ((d : ℤ) - (a : ℤ)).natAbs) &&
    decide (6 ≤ ((d : ℤ) - (b : ℤ)).natAbs)
  | _, _, _ => false

/-- The width-case property asserted by the spec for the anchors of a
scene: all three spaced anchors when `cols >= 17`; no anchors when
`cols < 6`; only the snowman when `6 <= cols < 12`; snowman and tree but
not santa when `12 <= cols < 17`. -/
def layout_claim (s : Scene) : Bool :=
  (if 17 ≤ s.cols then anchors_spaced s else true) &&
  (if s.cols < 6 then
    decide (s.snowman_col = none) && decide (s.tree_col = none) &&
      decide (s.santa_col = none)
   else true) &&
  (if 6 ≤ s.cols ∧ s.cols < 12 then
    s.snowman_col.isSome && decide (s.tree_col = none) &&
      decide (s.santa_col = none)
   else true) &&
  (if 12 ≤ s.cols ∧ s.cols < 17 then
    s.snowman_col.isSome && s.tree_col.isSome && decide (s.santa_col = none)
   else true)

/-- The sampling range of the snowman draw, `gen_range(1..cols-1)`
(scene.rs line 84). -/
def snowmanRange (cols : ℕ) : Finset ℕ := Finset.Ico 1 (cols - 1)

/-- The acceptance set of the tree rejection loop (scene.rs lines 89-94):
columns in the sampling range `2..cols-2` whose distance from the snowman
column is at least 6.  The loop breaks exactly when it draws an element of
this set, so it runs forever when the set is empty. -/
def treeCandidates (cols sm : ℕ) : Finset ℕ :=
  (Finset.Ico 2 (cols - 2)).filter
    (fun t => 6 ≤ ((t : ℤ) - (sm : ℤ)).natAbs)

/-- The acceptance set of the santa rejection loop (scene.rs lines
98-104): columns in the sampling range `1..cols-1` at distance at least 5
from the snowman and at least 6 from the tree. -/
def santaCandidates (cols sm t : ℕ) : Finset ℕ :=
  (Finset.Ico 1 (cols - 1)).filter
    (fun sa => 5 ≤ ((sa : ℤ) - (sm : ℤ)).natAbs ∧
      6 ≤ ((sa : ℤ) - (t : ℤ)).natAbs)

/-- A concrete scene: the result of `Scene::new` on a 20×40 low-intensity
grid with wind draws `0`, anchor draws `1, 7, 13` and initial spawn count
`0`.  Used to instantiate the theorems below at concrete inputs. -/
def sceneA : Scene :=
  { cols := 20, rows := 40, snowman_col := some 1, tree_col := some 7,
    santa_col := some 13, snowflakes := [], max_snowflakes := 40,
    intensity := .Low, wind_x := 0, wind_y := 0 }

/-- The scene produced by a resize of `sceneA` to a 10×40 grid (snowman
redrawn at column 3, spawn count 0): the tree and santa anchors of the
20-column layout persist. -/
def sceneB : Scene :=
  { cols := 10, rows := 40, snowman_col := some 3, tree_col := some 7,
    santa_col := some 13, snowflakes := [], max_snowflakes := 20,
    intensity := .Low, wind_x := 0, wind_y := 0 }

/-- The flake spawned in the concrete stable tick below: column draw `5`,
mass draw `1`. -/
def flakeW : Snowflake := { x := 5, y := 0, m := 1 }

/-- The scene produced by a stable tick on `sceneA` with no wind gust and
one spawned flake (`flakeW`). -/
def sceneC : Scene := { sceneA with snowflakes := [flakeW] }

/-! ### Helper lemmas -/

/-- Evaluation of `max_snowflakes_for` at low intensity:
`floor(0.05 * c * r) = c * r / 20`. -/
theorem max_snowflakes_for_low (c r : ℕ) :
    max_snowflakes_for SnowfallIntensity.Low c r = c * r / 20 := by
  unfold max_snowflakes_for density_factor
  rw [show (0.05 : ℚ) * (c : ℚ) * (r : ℚ) = ((c * r : ℕ) : ℚ) / ((20 : ℕ) : ℚ) by
    push_cast; ring]
  rw [Nat.floor_div_nat, Nat.floor_natCast]

/-- Evaluation of `max_snowflakes_for` at medium intensity. -/
theorem max_snowflakes_for_medium (c r : ℕ) :
    max_snowflakes_for SnowfallIntensity.Medium c r = c * r / 10 := by
  unfold max_snowflakes_for density_factor
  rw [show (0.1 : ℚ) * (c : ℚ) * (r : ℚ) = ((c * r : ℕ) : ℚ) / ((10 : ℕ) : ℚ) by
    push_cast; ring]
  rw [Nat.floor_div_nat, Nat.floor_natCast]

/-- Evaluation of `max_snowflakes_for` at high intensity. -/
theorem max_snowflakes_for_high (c r : ℕ) :
    max_snowflakes_for SnowfallIntensity.High c r = c * r / 5 := by
  unfold max_snowflakes_for density_factor
  rw [show (0.2 : ℚ) * (c : ℚ) * (r : ℚ) = ((c * r : ℕ) : ℚ) / ((5 : ℕ) : ℚ) by
    push_cast; ring]
  rw [Nat.floor_div_nat, Nat.floor_natCast]

/-- `calc_entity_positions` touches only the three anchor fields. -/
theorem calc_preserves (s : Scene) (sm t sa : ℕ) :
    (s.calc_entity_positions sm t sa).cols = s.cols ∧
    (s.calc_entity_positions sm t sa).rows = s.rows ∧
    (s.calc_entity_positions sm t sa).snowflakes = s.snowflakes ∧
    (s.calc_entity_positions sm t sa).max_snowflakes = s.max_snowflakes ∧
    (s.calc_entity_positions sm t sa).intensity = s.intensity ∧
    (s.calc_entity_positions sm t sa).wind_x = s.wind_x ∧
    (s.calc_entity_positions sm t sa).wind_y = s.wind_y := by
  unfold Scene.calc_entity_positions Scene.place_snowman Scene.place_tree
    Scene.place_santa
  split_ifs <;> simp

/-- Inversion of `init_snowflakes`: it succeeds exactly when the sampling
range `0..max/16` is nonempty, and then replaces `max_snowflakes` and the
live set. -/
theorem init_snowflakes_eq_some {s s2 : Scene} {num : ℕ} {xs : ℕ → ℕ}
    {ms : ℕ → ℚ} :
    s.init_snowflakes num xs ms = some s2 ↔
      max_snowflakes_for s.intensity s.cols s.rows / 16 ≠ 0 ∧
      s2 = { s with
        max_snowflakes := max_snowflakes_for s.intensity s.cols s.rows,
        snowflakes := (List.range num).map
          (fun i => Snowflake.new ((xs i : ℕ) : ℚ) 0 (ms i)) } := by
  unfold Scene.init_snowflakes
  split_ifs with h <;> simp [h, eq_comm]

/-- `init_snowflakes` panics whenever the recomputed maximum population is
below 16 (empty sampling range `0..max/16`). -/
theorem init_none_of_small (s : Scene) (num : ℕ) (xs : ℕ → ℕ) (ms : ℕ → ℚ)
    (h : max_snowflakes_for s.intensity s.cols s.rows < 16) :
    s.init_snowflakes num xs ms = none := by
  unfold Scene.init_snowflakes
  rw [if_pos (Nat.div_eq_of_lt h)]

/-- Unfolding of `is_alive` into the three bound checks. -/
theorem is_alive_eq_true_iff (f : Snowflake) (xm ym : ℚ) :
    f.is_alive xm ym = true ↔ f.y ≤ ym ∧ f.x ≤ xm ∧ 0 ≤ f.x := by
  simp [Snowflake.is_alive, and_assoc]

/-- Anchors after `calc_entity_positions` on a grid narrower than 6
columns: nothing is placed, all three anchors keep their previous
values. -/
theorem calc_anchors_lt6 (s : Scene) (sm t sa : ℕ) (h : s.cols < 6) :
    (s.calc_entity_positions sm t sa).snowman_col = s.snowman_col ∧
    (s.calc_entity_positions sm t sa).tree_col = s.tree_col ∧
    (s.calc_entity_positions sm t sa).santa_col = s.santa_col := by
  unfold Scene.calc_entity_positions Scene.place_snowman Scene.place_tree
    Scene.place_santa
  simp [show ¬ 6 ≤ s.cols by omega, show ¬ 12 ≤ s.cols by omega]

/-- Anchors after `calc_entity_positions` when `6 <= cols < 12`: the
snowman is redrawn, the tree and santa anchors keep their previous
values. -/
theorem calc_anchors_6_12 (s : Scene) (sm t sa : ℕ)
    (h6 : 6 ≤ s.cols) (h12 : s.cols < 12) :
    (s.calc_entity_positions sm t sa).snowman_col = some sm ∧
    (s.calc_entity_positions sm t sa).tree_col = s.tree_col ∧
    (s.calc_entity_positions sm t sa).santa_col = s.santa_col := by
  unfold Scene.calc_entity_positions Scene.place_snowman Scene.place_tree
    Scene.place_santa
  simp [h6, show ¬ 12 ≤ s.cols by omega]

/-- Anchors after `calc_entity_positions` when `12 <= cols < 17`: the
snowman and tree are redrawn, the santa anchor keeps its previous
value. -/
theorem calc_anchors_12_17 (s : Scene) (sm t sa : ℕ)
    (h12 : 12 ≤ s.cols) (h17 : s.cols < 17) :
    (s.calc_entity_positions sm t sa).snowman_col = some sm ∧
    (s.calc_entity_positions sm t sa).tree_col = some t ∧
    (s.calc_entity_positions sm t sa).santa_col = s.santa_col := by
  unfold Scene.calc_entity_positions Scene.place_snowman Scene.place_tree
    Scene.place_santa
  simp [show 6 ≤ s.cols by omega, h12, show ¬ 17 ≤ s.cols by omega]

/-- Anchors after `calc_entity_positions` when `cols >= 17`: all three
anchors are redrawn. -/
theorem calc_anchors_17 (s : Scene) (sm t sa : ℕ) (h17 : 17 ≤ s.cols) :
    (s.calc_entity_positions sm t sa).snowman_col = some sm ∧
    (s.calc_entity_positions sm t sa).tree_col = some t ∧
    (s.calc_entity_positions sm t sa).santa_col = some sa := by
  unfold Scene.calc_entity_positions Scene.place_snowman Scene.place_tree
    Scene.place_santa
  simp [show 6 ≤ s.cols by omega, show 12 ≤ s.cols by omega, h17]

/-- `sceneA` is the scene constructed by `Scene::new` on a 20×40
low-intensity grid with the stated draws. -/
theorem sceneA_new :
    Scene.new SnowfallIntensity.Low 20 40 0 0 1 7 13 0 (fun _ => 0)
      (fun _ => 1) = some sceneA := by
  have hcalc : (Scene.fresh SnowfallIntensity.Low 20 40 0 0).calc_entity_positions
      1 7 13 =
      { cols := 20, rows := 40, snowman_col := some 1, tree_col := some 7,
        santa_col := some 13, snowflakes := [], max_snowflakes := 0,
        intensity := .Low, wind_x := 0, wind_y := 0 } := rfl
  unfold Scene.new
  rw [hcalc]
  unfold Scene.init_snowflakes
  simp only [max_snowflakes_for_low]
  norm_num [sceneA]

/-- Resizing `sceneA` to a 10×40 grid (snowman redrawn at column 3, spawn
count 0) yields `sceneB`. -/
theorem sceneA_resize :
    sceneA.update 10 40 3 0 0 0 (fun _ => 0) (fun _ => 1) false 0 0 0
      (fun _ => 0) (fun _ => 1) = some sceneB := by
  have hcalc : ({ sceneA with cols := 10, rows := 40 }).calc_entity_positions
      3 0 0 =
      { cols := 10, rows := 40, snowman_col := some 3, tree_col := some 7,
        santa_col := some 13, snowflakes := [], max_snowflakes := 40,
        intensity := .Low, wind_x := 0, wind_y := 0 } := rfl
  unfold Scene.update
  rw [if_pos (by norm_num [sceneA])]
  rw [hcalc]
  unfold Scene.init_snowflakes
  simp only [max_snowflakes_for_low]
  norm_num [sceneB]

/-- A stable tick on `sceneA` (no gust, one spawned flake at column 5 with
mass 1) yields `sceneC`. -/
theorem sceneA_stable :
    sceneA.update 20 40 0 0 0 0 (fun _ => 0) (fun _ => 1) false 0 0 1
      (fun _ => 5) (fun _ => 1) = some sceneC := by
  unfold Scene.update
  rw [if_neg (by norm_num [sceneA])]
  rfl

/-! ### Claim theorems -/

/-- Claim C2: on a 20×10 low-intensity grid the computed maximum
population is `floor(0.05 * 20 * 10) = 10`; however the initial spawn does
NOT produce 0 particles — `init_snowflakes` draws from the empty range
`0..(10/16)` and therefore panics (`none`), both directly and through
`Scene::new`. -/
theorem low_20x10_initial_spawn :
    max_snowflakes_for SnowfallIntensity.Low 20 10 = 10 ∧
    (Scene.fresh SnowfallIntensity.Low 20 10 0 0).init_snowflakes 0
      (fun _ => 0) (fun _ => 1) = none ∧
    Scene.new SnowfallIntensity.Low 20 10 0 0 1 7 13 0 (fun _ => 0)
      (fun _ => 1) = none := by
  refine ⟨by rw [max_snowflakes_for_low], ?_, ?_⟩
  · exact init_none_of_small _ _ _ _
      (by norm_num [Scene.fresh, max_snowflakes_for_low])
  · unfold Scene.new
    apply init_none_of_small
    obtain ⟨hc, hr, -, -, hi, -, -⟩ :=
      calc_preserves (Scene.fresh SnowfallIntensity.Low 20 10 0 0) 1 7 13
    rw [hc, hr, hi]
    norm_num [Scene.fresh, max_snowflakes_for_low]

/-- Claim C3: whenever the recomputed maximum population
`floor(density_factor * cols * rows)` is below 16, the initial spawn draws
from the empty integer range `0..max/16` and panics: `Scene::new` with
those dimensions panics, and so does any `update` call that observes a
resize to those dimensions. -/
theorem small_max_init_panics (i : SnowfallIntensity) (c r : ℕ)
    (wx0 wy0 : ℚ) (sm t sa num : ℕ) (xs0 : ℕ → ℕ) (ms0 : ℕ → ℚ)
    (h : max_snowflakes_for i c r < 16) :
    Scene.new i c r wx0 wy0 sm t sa num xs0 ms0 = none ∧
    ∀ (s : Scene) (gust : Bool) (wdx wdy : ℚ) (numNew : ℕ) (xs : ℕ → ℕ)
      (ms : ℕ → ℚ), (c ≠ s.cols ∨ r ≠ s.rows) → s.intensity = i →
      s.update c r sm t sa num xs0 ms0 gust wdx wdy numNew xs ms = none := by
  constructor
  · unfold Scene.new
    apply init_none_of_small
    obtain ⟨hc, hr, -, -, hi, -, -⟩ :=
      calc_preserves (Scene.fresh i c r wx0 wy0) sm t sa
    rw [hc, hr, hi]
    exact h
  · intro s gust wdx wdy numNew xs ms hne hint
    unfold Scene.update
    rw [if_pos hne]
    apply init_none_of_small
    obtain ⟨hc, hr, -, -, hi, -, -⟩ :=
      calc_preserves ({ s with cols := c, rows := r }) sm t sa
    rw [hc, hr, hi]
    show max_snowflakes_for s.intensity c r < 16
    rw [hint]
    exact h

/-- Claim C4: the layout rejection loops do not always have an acceptable
column.  At grid width 12, the snowman column 5 is a possible draw from
`gen_range(1..11)`, and then the tree loop's acceptance set (columns in
`gen_range(2..10)` at distance at least 6 from the snowman) is empty, so
the loop at scene.rs lines 89-94 never breaks. -/
theorem tree_loop_no_acceptable_column :
    5 ∈ snowmanRange 12 ∧ treeCandidates 12 5 = ∅ := by decide

/-- Claim C5: after `n` integration steps with constant wind `(wx, wy)`,
a flake's `x` is its initial `x` plus `n * wx` (no horizontal gravity
term), its `y` is its initial `y` plus `n * (wy + 0.98 * m)`, and its mass
is unchanged. -/
theorem integration_formula (f : Snowflake) (wx wy : ℚ) (n : ℕ) :
    (f.updateN wx wy n).x = f.x + n * wx ∧
    (f.updateN wx wy n).y = f.y + n * (wy + 0.98 * f.m) ∧
    (f.updateN wx wy n).m = f.m := by
  induction n with
  | zero => simp [Snowflake.updateN]
  | succ k ih =>
    obtain ⟨hx, hy, hm⟩ := ih
    refine ⟨?_, ?_, ?_⟩
    · show (f.updateN wx wy k).x + wx = _
      rw [hx]
      push_cast
      ring
    · show (f.updateN wx wy k).y + (wy + GRAVITY * (f.updateN wx wy k).m) = _
      rw [hy, hm]
      unfold GRAVITY
      push_cast
      ring
    · exact hm

/-- Claim C6: `wind_y >= 0` holds for the scene built by `Scene::new`
(whose vertical wind draw comes from `gen_range(0.0..0.05)`), and is
preserved by every `update` call, whatever delta is drawn: on a gust tick
the vertical component is clamped with `.max(0.0)`, otherwise the wind is
unchanged. -/
theorem wind_y_nonneg :
    (∀ (i : SnowfallIntensity) (c r : ℕ) (wx0 wy0 : ℚ) (sm t sa num : ℕ)
      (xs : ℕ → ℕ) (ms : ℕ → ℚ) (s2 : Scene), 0 ≤ wy0 → wy0 < 0.05 →
      Scene.new i c r wx0 wy0 sm t sa num xs ms = some s2 →
      0 ≤ s2.wind_y) ∧
    (∀ s : Scene, 0 ≤ s.wind_y →
      ∀ (c r sm t sa num : ℕ) (xs0 : ℕ → ℕ) (ms0 : ℕ → ℚ) (gust : Bool)
        (wdx wdy : ℚ) (numNew : ℕ) (xs : ℕ → ℕ) (ms : ℕ → ℚ) (s2 : Scene),
        s.update c r sm t sa num xs0 ms0 gust wdx wdy numNew xs ms = some s2 →
        0 ≤ s2.wind_y) := by
  constructor
  · intro i c r wx0 wy0 sm t sa num xs ms s2 h0 _ hnew
    unfold Scene.new at hnew
    obtain ⟨-, hs2⟩ := init_snowflakes_eq_some.mp hnew
    subst hs2
    show (0 : ℚ) ≤
      ((Scene.fresh i c r wx0 wy0).calc_entity_positions sm t sa).wind_y
    rw [(calc_preserves _ _ _ _).2.2.2.2.2.2]
    exact h0
  · intro s h0 c r sm t sa num xs0 ms0 gust wdx wdy numNew xs ms s2 hupd
    unfold Scene.update at hupd
    split_ifs at hupd with hne
    · obtain ⟨-, hs2⟩ := init_snowflakes_eq_some.mp hupd
      subst hs2
      show (0 : ℚ) ≤
        (({ s with cols := c, rows := r }).calc_entity_positions sm t sa).wind_y
      rw [(calc_preserves _ _ _ _).2.2.2.2.2.2]
      exact h0
    · obtain rfl : s.update_stable gust wdx wdy numNew xs ms = s2 := by
        simpa using hupd
      show 0 ≤ (s.wind_after gust wdx wdy).2
      unfold Scene.wind_after
      split_ifs
      · exact le_max_right _ _
      · exact h0

/-- Claim C7: an `update` call that observes a terminal size different
from the stored one runs exactly the resize branch — recompute the anchors
for the new dimensions and reinitialise the population by the
initial-spawn rule — and performs none of the tick's physics: the
resulting scene keeps the old wind and intensity, stores the new
dimensions, and its live set is exactly the freshly spawned one. -/
theorem resize_skips_physics (s : Scene) (c r sm t sa num : ℕ)
    (xs0 : ℕ → ℕ) (ms0 : ℕ → ℚ) (gust : Bool) (wdx wdy : ℚ)
    (numNew : ℕ) (xs : ℕ → ℕ) (ms : ℕ → ℚ)
    (hne : c ≠ s.cols ∨ r ≠ s.rows) :
    s.update c r sm t sa num xs0 ms0 gust wdx wdy numNew xs ms
      = (({ s with cols := c, rows := r }).calc_entity_positions sm t sa).init_snowflakes
          num xs0 ms0 ∧
    ∀ s2 : Scene,
      s.update c r sm t sa num xs0 ms0 gust wdx wdy numNew xs ms = some s2 →
      s2.cols = c ∧ s2.rows = r ∧ s2.wind_x = s.wind_x ∧
      s2.wind_y = s.wind_y ∧ s2.intensity = s.intensity ∧
      s2.snowman_col
        = (({ s with cols := c, rows := r }).calc_entity_positions sm t sa).snowman_col ∧
      s2.tree_col
        = (({ s with cols := c, rows := r }).calc_entity_positions sm t sa).tree_col ∧
      s2.santa_col
        = (({ s with cols := c, rows := r }).calc_entity_positions sm t sa).santa_col ∧
      s2.max_snowflakes = max_snowflakes_for s.intensity c r ∧
      s2.snowflakes = (List.range num).map
        (fun i => Snowflake.new ((xs0 i : ℕ) : ℚ) 0 (ms0 i)) := by
  have heq : s.update c r sm t sa num xs0 ms0 gust wdx wdy numNew xs ms
      = (({ s with cols := c, rows := r }).calc_entity_positions sm t sa).init_snowflakes
          num xs0 ms0 := by
    unfold Scene.update
    rw [if_pos hne]
  refine ⟨heq, ?_⟩
  intro s2 hupd
  rw [heq] at hupd
  obtain ⟨-, hs2⟩ := init_snowflakes_eq_some.mp hupd
  obtain ⟨hc, hr, -, -, hi, hwx, hwy⟩ :=
    calc_preserves ({ s with cols := c, rows := r }) sm t sa
  subst hs2
  refine ⟨hc, hr, hwx, hwy, hi, rfl, rfl, rfl, ?_, rfl⟩
  show max_snowflakes_for
      (({ s with cols := c, rows := r }).calc_entity_positions sm t sa).intensity
      (({ s with cols := c, rows := r }).calc_entity_positions sm t sa).cols
      (({ s with cols := c, rows := r }).calc_entity_positions sm t sa).rows
    = max_snowflakes_for s.intensity c r
  rw [hc, hr, hi]

/-- Claim C1 (amended): the width cases hold as stated for the layout run
at construction (where all anchors start absent); after a resize
recomputation they hold when `columns >= 17` (all three anchors are then
redrawn and pairwise spaced), but for narrower widths anchors of the
previous layout persist, because `calc_entity_positions` never resets an
anchor to `None` (see the counterexample). -/
theorem layout_width_cases :
    (∀ (i : SnowfallIntensity) (c r : ℕ) (wx0 wy0 : ℚ) (sm t sa : ℕ),
      ValidCalcDraws c sm t sa →
      layout_claim ((Scene.fresh i c r wx0 wy0).calc_entity_positions sm t sa)
        = true) ∧
    (∀ (s : Scene) (sm t sa : ℕ), 17 ≤ s.cols → ValidCalcDraws s.cols sm t sa →
      anchors_spaced (s.calc_entity_positions sm t sa) = true) := by
  constructor
  · rintro i c r wx0 wy0 sm t sa ⟨h6, h12, h17⟩
    have hcols : ((Scene.fresh i c r wx0 wy0).calc_entity_positions sm t sa).cols
        = c := (calc_preserves _ _ _ _).1
    have hfcols : (Scene.fresh i c r wx0 wy0).cols = c := rfl
    unfold layout_claim
    rw [hcols]
    rcases Nat.lt_or_ge c 6 with hlt | hge6
    · obtain ⟨ha, hb, hd⟩ := calc_anchors_lt6 (Scene.fresh i c r wx0 wy0)
        sm t sa (by rw [hfcols]; exact hlt)
      rw [ha, hb, hd]
      simp [Scene.fresh, hlt, show ¬ 17 ≤ c by omega,
        show ¬ (6 ≤ c ∧ c < 12) by omega, show ¬ (12 ≤ c ∧ c < 17) by omega]
    · rcases Nat.lt_or_ge c 12 with hlt12 | hge12
      · obtain ⟨ha, hb, hd⟩ := calc_anchors_6_12 (Scene.fresh i c r wx0 wy0)
          sm t sa (by rw [hfcols]; exact hge6) (by rw [hfcols]; exact hlt12)
        rw [ha, hb, hd]
        simp [Scene.fresh, show ¬ c < 6 by omega, show ¬ 17 ≤ c by omega,
          show 6 ≤ c ∧ c < 12 from ⟨hge6, hlt12⟩,
          show ¬ (12 ≤ c ∧ c < 17) by omega]
      · rcases Nat.lt_or_ge c 17 with hlt17 | hge17
        · obtain ⟨ha, hb, hd⟩ := calc_anchors_12_17 (Scene.fresh i c r wx0 wy0)
            sm t sa (by rw [hfcols]; exact hge12) (by rw [hfcols]; exact hlt17)
          rw [ha, hb, hd]
          simp [Scene.fresh, show ¬ c < 6 by omega, show ¬ 17 ≤ c by omega,
            show ¬ (6 ≤ c ∧ c < 12) by omega,
            show 12 ≤ c ∧ c < 17 from ⟨hge12, hlt17⟩]
        · obtain ⟨ht2, htlt, htd⟩ := h12 (by omega)
          obtain ⟨hs1, hslt, hsd1, hsd2⟩ := h17 hge17
          obtain ⟨ha, hb, hd⟩ := calc_anchors_17 (Scene.fresh i c r wx0 wy0)
            sm t sa (by rw [hfcols]; exact hge17)
          unfold anchors_spaced
          rw [ha, hb, hd]
          simp [hge17, show ¬ c < 6 by omega,
            show ¬ (6 ≤ c ∧ c < 12) by omega, show ¬ (12 ≤ c ∧ c < 17) by omega]
          exact ⟨⟨htd, hsd1⟩, hsd2⟩
  · rintro s sm t sa hc17 ⟨h6, h12, h17⟩
    obtain ⟨ht2, htlt, htd⟩ := h12 (by omega)
    obtain ⟨hs1, hslt, hsd1, hsd2⟩ := h17 hc17
    obtain ⟨ha, hb, hd⟩ := calc_anchors_17 s sm t sa hc17
    unfold anchors_spaced
    rw [ha, hb, hd]
    simp
    exact ⟨⟨htd, hsd1⟩, hsd2⟩

/-- Counterexample to claim C1 as stated: `sceneA` is reachable by
construction on a 20×40 grid (all draws in range); resizing it to a 10×40
grid leaves the tree anchor (and the santa anchor) of the 20-column
layout in place, so the resulting scene violates the width-case property
(`6 <= columns < 12` requires the tree anchor to be absent). -/
theorem layout_width_cases_cex :
    Scene.new SnowfallIntensity.Low 20 40 0 0 1 7 13 0 (fun _ => 0) (fun _ => 1)
      = some sceneA ∧
    sceneA.update 10 40 3 0 0 0 (fun _ => 0) (fun _ => 1) false 0 0 0
      (fun _ => 0) (fun _ => 1) = some sceneB ∧
    ValidCalcDraws 20 1 7 13 ∧ ValidCalcDraws 10 3 0 0 ∧
    layout_claim sceneB = false :=
  ⟨sceneA_new, sceneA_resize, by decide, by decide, by decide⟩

/-- Witness for the amended claim C1 at concrete inputs: a fresh 20×10
layout with draws `1, 7, 13` satisfies the width cases, and recomputation
on the 20-column `sceneA` yields three pairwise spaced anchors. -/
theorem layout_width_cases_w :
    layout_claim
      ((Scene.fresh SnowfallIntensity.Low 20 10 0 0).calc_entity_positions 1 7 13)
      = true ∧
    anchors_spaced (sceneA.calc_entity_positions 1 7 13) = true :=
  ⟨layout_width_cases.1 SnowfallIntensity.Low 20 10 0 0 1 7 13 (by decide),
   layout_width_cases.2 sceneA 1 7 13 (by decide) (by decide)⟩

/-- The live set of a stable tick, unfolded. -/
theorem update_stable_snowflakes (s : Scene) (gust : Bool) (wdx wdy : ℚ)
    (numNew : ℕ) (xs : ℕ → ℕ) (ms : ℕ → ℚ) :
    (s.update_stable gust wdx wdy numNew xs ms).snowflakes
      = if (s.culled_after gust wdx wdy).length < s.max_snowflakes then
          s.culled_after gust wdx wdy ++ (List.range numNew).map
            (fun i => Snowflake.new ((xs i : ℕ) : ℚ) 0 (ms i))
        else s.culled_after gust wdx wdy := rfl

/-- A stable tick does not change the stored grid width. -/
theorem update_stable_cols (s : Scene) (gust : Bool) (wdx wdy : ℚ)
    (numNew : ℕ) (xs : ℕ → ℕ) (ms : ℕ → ℚ) :
    (s.update_stable gust wdx wdy numNew xs ms).cols = s.cols := rfl

/-- A stable tick does not change the stored grid height. -/
theorem update_stable_rows (s : Scene) (gust : Bool) (wdx wdy : ℚ)
    (numNew : ℕ) (xs : ℕ → ℕ) (ms : ℕ → ℚ) :
    (s.update_stable gust wdx wdy numNew xs ms).rows = s.rows := rfl

/-- A stable tick does not change the maximum population. -/
theorem update_stable_max (s : Scene) (gust : Bool) (wdx wdy : ℚ)
    (numNew : ℕ) (xs : ℕ → ℕ) (ms : ℕ → ℚ) :
    (s.update_stable gust wdx wdy numNew xs ms).max_snowflakes
      = s.max_snowflakes := rfl

/-- Claim C8: immediately after any successful `update` call, every flake
of the live set is in bounds for the stored dimensions: `0 <= x`,
`x <= cols` and `y <= rows`.  On a stable tick survivors pass `is_alive`
and fresh spawns start at `y = 0` with `x` drawn from `0..cols`; on a
resize tick the population is exactly the freshly spawned, in-bounds
one. -/
theorem update_in_bounds (s : Scene) (c r sm t sa num : ℕ)
    (xs0 : ℕ → ℕ) (ms0 : ℕ → ℚ) (gust : Bool) (wdx wdy : ℚ)
    (numNew : ℕ) (xs : ℕ → ℕ) (ms : ℕ → ℚ)
    (hxs0 : ∀ i, i < num → xs0 i < c)
    (hxs : ∀ i, i < numNew → xs i < s.cols)
    (s2 : Scene)
    (h : s.update c r sm t sa num xs0 ms0 gust wdx wdy numNew xs ms = some s2)
    (f : Snowflake) (hf : f ∈ s2.snowflakes) :
    0 ≤ f.x ∧ f.x ≤ (s2.cols : ℚ) ∧ f.y ≤ (s2.rows : ℚ) := by
  unfold Scene.update at h
  split_ifs at h with hne
  · obtain ⟨-, hs2⟩ := init_snowflakes_eq_some.mp h
    have hc : s2.cols = c := by
      rw [hs2]; exact (calc_preserves _ _ _ _).1
    have hflakes : s2.snowflakes = (List.range num).map
        (fun i => Snowflake.new ((xs0 i : ℕ) : ℚ) 0 (ms0 i)) := by
      rw [hs2]
    rw [hflakes] at hf
    simp only [List.mem_map, List.mem_range] at hf
    obtain ⟨i, hi, rfl⟩ := hf
    refine ⟨Nat.cast_nonneg _, ?_, ?_⟩
    · show ((xs0 i : ℕ) : ℚ) ≤ (s2.cols : ℚ)
      rw [hc]
      exact Nat.cast_le.mpr (hxs0 i hi).le
    · show (0 : ℚ) ≤ (s2.rows : ℚ)
      exact Nat.cast_nonneg _
  · obtain rfl : s.update_stable gust wdx wdy numNew xs ms = s2 := by
      simpa using h
    rw [update_stable_snowflakes] at hf
    rw [update_stable_cols, update_stable_rows]
    have hculled : ∀ g ∈ s.culled_after gust wdx wdy,
        0 ≤ g.x ∧ g.x ≤ (s.cols : ℚ) ∧ g.y ≤ (s.rows : ℚ) := by
      intro g hg
      unfold Scene.culled_after at hg
      rw [List.mem_filter] at hg
      obtain ⟨h1, h2, h3⟩ := (is_alive_eq_true_iff _ _ _).mp hg.2
      exact ⟨h3, h2, h1⟩
    have hnew : ∀ g ∈ (List.range numNew).map
        (fun i => Snowflake.new ((xs i : ℕ) : ℚ) 0 (ms i)),
        0 ≤ g.x ∧ g.x ≤ (s.cols : ℚ) ∧ g.y ≤ (s.rows : ℚ) := by
      intro g hg
      simp only [List.mem_map, List.mem_range] at hg
      obtain ⟨i, hi, rfl⟩ := hg
      refine ⟨Nat.cast_nonneg _, ?_, ?_⟩
      · show ((xs i : ℕ) : ℚ) ≤ (s.cols : ℚ)
        exact Nat.cast_le.mpr (hxs i hi).le
      · show (0 : ℚ) ≤ (s.rows : ℚ)
        exact Nat.cast_nonneg _
    split_ifs at hf with hlen
    · rcases List.mem_append.mp hf with hmem | hmem
      · exact hculled f hmem
      · exact hnew f hmem
    · exact hculled f hf

/-- Claim C9 (amended): on a stable tick, spawning happens exactly when
the culled live count is below the maximum; the spawn count is drawn from
the inclusive range `0..=(rem/10)`; every new flake starts at `y = 0` with
`x` drawn from `0..cols`; its mass, however, is drawn from the HALF-OPEN
range `0.6..1.4`, which differs at the endpoint from the initial spawn's
inclusive `0.6..=1.4` (see the counterexample). -/
theorem tick_spawn_rule (s : Scene) (gust : Bool) (wdx wdy : ℚ)
    (numNew : ℕ) (xs : ℕ → ℕ) (ms : ℕ → ℚ)
    (_hnum : numNew ≤
      (s.max_snowflakes - (s.culled_after gust wdx wdy).length) / 10)
    (hxs : ∀ i, i < numNew → xs i < s.cols)
    (hms : ∀ i, i < numNew → tick_mass_ok (ms i) = true) :
    ((s.culled_after gust wdx wdy).length < s.max_snowflakes →
      (s.update_stable gust wdx wdy numNew xs ms).snowflakes
        = s.culled_after gust wdx wdy ++ (List.range numNew).map
            (fun i => Snowflake.new ((xs i : ℕ) : ℚ) 0 (ms i)) ∧
      ∀ f ∈ (List.range numNew).map
          (fun i => Snowflake.new ((xs i : ℕ) : ℚ) 0 (ms i)),
        f.y = 0 ∧ 0 ≤ f.x ∧ f.x < (s.cols : ℚ) ∧
          0.6 ≤ f.m ∧ f.m < 1.4) ∧
    (s.max_snowflakes ≤ (s.culled_after gust wdx wdy).length →
      (s.update_stable gust wdx wdy numNew xs ms).snowflakes
        = s.culled_after gust wdx wdy) := by
  constructor
  · intro hlt
    constructor
    · rw [update_stable_snowflakes, if_pos hlt]
    · intro f hf
      simp only [List.mem_map, List.mem_range] at hf
      obtain ⟨i, hi, rfl⟩ := hf
      have hm := hms i hi
      simp only [tick_mass_ok, Bool.and_eq_true, decide_eq_true_eq] at hm
      refine ⟨rfl, Nat.cast_nonneg _, ?_, hm.1, hm.2⟩
      show ((xs i : ℕ) : ℚ) < (s.cols : ℚ)
      exact Nat.cast_lt.mpr (hxs i hi)
  · intro hge
    rw [update_stable_snowflakes, if_neg (by omega)]

/-- Counterexample to claim C9 as stated: the per-tick mass distribution
is NOT the same as the initial spawn's.  The mass value `1.4` is
admissible for the initial spawn (`gen_range(0.6..=1.4)`, inclusive) but
not for the per-tick spawn (`gen_range(0.6..1.4)`, exclusive upper
bound). -/
theorem tick_spawn_rule_cex :
    init_mass_ok 1.4 = true ∧ tick_mass_ok 1.4 = false := by
  constructor
  · simp only [init_mass_ok, Bool.and_eq_true, decide_eq_true_eq]
    norm_num
  · simp only [tick_mass_ok, Bool.and_eq_false_iff, decide_eq_false_iff_not]
    norm_num

/-- Witness for the amended claim C9 at a concrete input: the stable tick
on `sceneA` with one spawn draw (column 5, mass 1) appends exactly the
drawn flake. -/
theorem tick_spawn_rule_w :
    (sceneA.update_stable false 0 0 1 (fun _ => 5) (fun _ => 1)).snowflakes
      = sceneA.culled_after false 0 0 ++ (List.range 1).map
          (fun _ => Snowflake.new ((5 : ℕ) : ℚ) 0 1) :=
  ((tick_spawn_rule sceneA false 0 0 1 (fun _ => 5) (fun _ => 1) (by decide)
      (by intro i hi; show (5 : ℕ) < sceneA.cols; decide)
      (by intro i hi; show tick_mass_ok 1 = true
          simp only [tick_mass_ok, Bool.and_eq_true, decide_eq_true_eq]
          norm_num)).1
    (by decide)).1

/-- Claim C10: the live count never exceeds the maximum population.  The
initial spawn produces at most `max/16 - 1 <= max` flakes, and a stable
tick preserves `count <= max`: culling only removes, and the spawn branch
runs only when `count < max` and adds at most `(max - count) / 10 <=
max - count` flakes. -/
theorem population_bounded :
    (∀ (i : SnowfallIntensity) (c r : ℕ) (wx0 wy0 : ℚ) (sm t sa num : ℕ)
      (xs : ℕ → ℕ) (ms : ℕ → ℚ) (s2 : Scene),
      num < max_snowflakes_for i c r / 16 →
      Scene.new i c r wx0 wy0 sm t sa num xs ms = some s2 →
      s2.snowflakes.length ≤ s2.max_snowflakes) ∧
    (∀ (s : Scene) (gust : Bool) (wdx wdy : ℚ) (numNew : ℕ) (xs : ℕ → ℕ)
      (ms : ℕ → ℚ),
      numNew ≤ (s.max_snowflakes - (s.culled_after gust wdx wdy).length) / 10 →
      s.snowflakes.length ≤ s.max_snowflakes →
      (s.update_stable gust wdx wdy numNew xs ms).snowflakes.length
        ≤ (s.update_stable gust wdx wdy numNew xs ms).max_snowflakes) := by
  constructor
  · intro i c r wx0 wy0 sm t sa num xs ms s2 hnum hnew
    unfold Scene.new at hnew
    obtain ⟨-, hs2⟩ := init_snowflakes_eq_some.mp hnew
    have hlen : s2.snowflakes.length = num := by
      rw [hs2]
      show ((List.range num).map _).length = num
      rw [List.length_map, List.length_range]
    have hmax : s2.max_snowflakes = max_snowflakes_for i c r := by
      rw [hs2]
      obtain ⟨hc, hr, -, -, hi, -, -⟩ :=
        calc_preserves (Scene.fresh i c r wx0 wy0) sm t sa
      show max_snowflakes_for
          ((Scene.fresh i c r wx0 wy0).calc_entity_positions sm t sa).intensity
          ((Scene.fresh i c r wx0 wy0).calc_entity_positions sm t sa).cols
          ((Scene.fresh i c r wx0 wy0).calc_entity_positions sm t sa).rows
        = max_snowflakes_for i c r
      rw [hc, hr, hi]
      rfl
    rw [hlen, hmax]
    exact le_trans (Nat.le_of_lt hnum) (Nat.div_le_self _ _)
  · intro s gust wdx wdy numNew xs ms hnum hlen
    have hcull : (s.culled_after gust wdx wdy).length ≤ s.snowflakes.length := by
      unfold Scene.culled_after
      exact le_trans (List.length_filter_le _ _) (le_of_eq (List.length_map _ _))
    rw [update_stable_max, update_stable_snowflakes]
    split_ifs with hlt
    · rw [List.length_append, List.length_map, List.length_range]
      have h10 : numNew ≤ s.max_snowflakes - (s.culled_after gust wdx wdy).length :=
        le_trans hnum (Nat.div_le_self _ _)
      omega
    · omega

/-- Witness for claim C10 at a concrete input: the construction that
yields `sceneA` and the stable tick on `sceneA` both respect the bound. -/
theorem population_bounded_w :
    sceneA.snowflakes.length ≤ sceneA.max_snowflakes ∧
    (sceneA.update_stable false 0 0 1 (fun _ => 5) (fun _ => 1)).snowflakes.length
      ≤ (sceneA.update_stable false 0 0 1 (fun _ => 5) (fun _ => 1)).max_snowflakes :=
  ⟨population_bounded.1 SnowfallIntensity.Low 20 40 0 0 1 7 13 0 (fun _ => 0)
      (fun _ => 1) sceneA (by norm_num [max_snowflakes_for_low]) sceneA_new,
   population_bounded.2 sceneA false 0 0 1 (fun _ => 5) (fun _ => 1)
      (by decide) (by decide)⟩

/-- Witness for claim C3 at a concrete input: low intensity on a 20×10
grid gives a maximum population of 10 < 16, so `Scene::new` panics. -/
theorem small_max_init_panics_w :
    Scene.new SnowfallIntensity.Low 20 10 0 0 1 7 13 0 (fun _ => 0)
      (fun _ => 1) = none :=
  (small_max_init_panics SnowfallIntensity.Low 20 10 0 0 1 7 13 0 (fun _ => 0)
    (fun _ => 1) (by norm_num [max_snowflakes_for_low])).1

/-- Witness for claim C6 at concrete inputs: the constructed `sceneA` and
the scene after a stable tick on it both have non-negative vertical
wind. -/
theorem wind_y_nonneg_w : 0 ≤ sceneA.wind_y ∧ 0 ≤ sceneC.wind_y :=
  ⟨wind_y_nonneg.1 SnowfallIntensity.Low 20 40 0 0 1 7 13 0 (fun _ => 0)
      (fun _ => 1) sceneA le_rfl (by norm_num) sceneA_new,
   wind_y_nonneg.2 sceneA le_rfl 20 40 0 0 0 0 (fun _ => 0) (fun _ => 1)
      false 0 0 1 (fun _ => 5) (fun _ => 1) sceneC sceneA_stable⟩

/-- Witness for claim C7 at a concrete input: resizing `sceneA` from
20×40 to 10×40 runs exactly the resize branch and keeps the wind and
intensity. -/
theorem resize_skips_physics_w :
    sceneA.update 10 40 3 0 0 0 (fun _ => 0) (fun _ => 1) false 0 0 0
        (fun _ => 0) (fun _ => 1)
      = (({ sceneA with cols := 10, rows := 40 }).calc_entity_positions 3 0 0).init_snowflakes
          0 (fun _ => 0) (fun _ => 1) ∧
    sceneB.wind_x = sceneA.wind_x ∧ sceneB.wind_y = sceneA.wind_y ∧
    sceneB.intensity = sceneA.intensity :=
  have h := resize_skips_physics sceneA 10 40 3 0 0 0 (fun _ => 0) (fun _ => 1)
    false 0 0 0 (fun _ => 0) (fun _ => 1) (by simp [sceneA])
  ⟨h.1, (h.2 sceneB sceneA_resize).2.2.1, (h.2 sceneB sceneA_resize).2.2.2.1,
    (h.2 sceneB sceneA_resize).2.2.2.2.1⟩

/-- Witness for claim C8 at a concrete input: the flake spawned by the
stable tick on `sceneA` is in bounds. -/
theorem update_in_bounds_w :
    0 ≤ flakeW.x ∧ flakeW.x ≤ (sceneC.cols : ℚ) ∧ flakeW.y ≤ (sceneC.rows : ℚ) :=
  update_in_bounds sceneA 20 40 0 0 0 0 (fun _ => 0) (fun _ => 1) false 0 0 1
    (fun _ => 5) (fun _ => 1)
    (by intro i hi; exact absurd hi (Nat.not_lt_zero i))
    (by intro i hi; show (5 : ℕ) < sceneA.cols; decide)
    sceneC sceneA_stable flakeW (by simp [sceneC])

end Snowman
